import Mathlib

/-!
# Verification of the cluster bridge and the tenant middleware

Shallow embedding of

* `pkg/apimachinery/bridge/clientset.go`: `Clientset.RegisterSchema`, `Clientset.GetResource`;
* `pkg/services/mtctx/service_impl.go`: `stackName`, `initializeDBConnection`,
  `buildTenantInfoFromConfig`, `serviceImpl.Middleware`.

Go maps are association lists with unique keys (`AList`), Go pointers to heap objects
are indices into an explicit heap, and calls that leave the process (the cluster API,
the REST mapper, the SQL store factory) are answers supplied by the caller of the model.
-/

namespace bridge

/-! ## Data model of `clientset.go` -/

/-- The map key `k8schema.GroupVersion`. -/
structure GroupVersion where
  Group : String
  Version : String
  deriving DecidableEq, Repr

/-- The triple `k8schema.GroupVersionKind` returned by `gcrd.GVK()`. -/
structure GroupVersionKind where
  Group : String
  Version : String
  Kind : String
  deriving DecidableEq, Repr

/-- The pair `k8schema.GroupKind` that `GetResource` resolves. -/
structure GroupKind where
  Group : String
  Kind : String
  deriving DecidableEq, Repr

/-- The triple `k8schema.GroupVersionResource` carried by a REST mapping. -/
structure GroupVersionResource where
  Group : String
  Version : String
  Resource : String
  deriving DecidableEq, Repr

/-- The wire object `apiextensionsv1.CustomResourceDefinition`: its name, the schema body
it carries and the status conditions the server assigned. The zero value is the empty
object. -/
structure CustomResourceDefinition where
  Name : String
  Spec : String
  Conditions : List String
  deriving DecidableEq, Repr

/-- The zero value `apiextensionsv1.CustomResourceDefinition{}`. -/
def CustomResourceDefinition.zero : CustomResourceDefinition := ⟨"", "", []⟩

/-- The schema argument `k8ssys.Kind`: the value of `gcrd.GVK()` and the field
`gcrd.Schema`. -/
structure Kind where
  GVK : GroupVersionKind
  Schema : CustomResourceDefinition
  deriving DecidableEq, Repr

/-- Go `error` values seen by the bridge: the package sentinel, an API status error
with its reason, and any other error. -/
inductive Error where
  | ErrCRDAlreadyRegistered : Error
  | StatusError (reason : String) (message : String) : Error
  | other (message : String) : Error
  deriving DecidableEq, Repr

/-- The predicate `kerrors.IsAlreadyExists`: the error's status reason is
`metav1.StatusReasonAlreadyExists`. -/
def IsAlreadyExists : Error → Bool
  | Error.StatusError reason _ => reason == "AlreadyExists"
  | _ => false

/-- The pair `(crd, err)` returned by `CustomResourceDefinitions().Create`. The typed
client allocates the result object before it sends the request, so `crd` is never a nil
pointer: when the request fails it points to the object as the failed call left it. -/
structure CreateResult where
  crd : CustomResourceDefinition
  err : Option Error
  deriving DecidableEq, Repr

/-- The field `Clientset.CRDs`, a `map[GroupVersion]CustomResourceDefinition`. -/
abbrev Registry := AList (fun _ : GroupVersion => CustomResourceDefinition)

/-- The name `meta.RESTScopeNameNamespace`. -/
def RESTScopeNameNamespace : String := "namespace"

/-- The name `meta.RESTScopeNameRoot`. -/
def RESTScopeNameRoot : String := "root"

/-- The fields of `meta.RESTMapping` read by `GetResource`: the resource and
`mapping.Scope.Name()`. -/
structure RESTMapping where
  Resource : GroupVersionResource
  GroupVersionKind : GroupVersionKind
  ScopeName : String
  deriving DecidableEq, Repr

/-- The interface `dynamic.Interface` with handles of type `H`: `Resource` gives the
unqualified handle, `Namespace` binds a handle to a namespace. -/
structure DynamicInterface (H : Type) where
  Resource : GroupVersionResource → H
  Namespace : H → String → H

/-- The struct `Clientset`: the registry, the dynamic client and the REST mapper
(`mapper.RESTMapping(gk, versions...)` answers with a mapping or with an error). -/
structure Clientset (H : Type) where
  CRDs : Registry
  Dynamic : DynamicInterface H
  mapper : GroupKind → List String → Except Error RESTMapping

/-- The key built at the top of `RegisterSchema` from `gcrd.GVK()`. -/
def Kind.ver (gcrd : Kind) : GroupVersion :=
  { Group := gcrd.GVK.Group, Version := gcrd.GVK.Version }

/-- The method `Clientset.RegisterSchema`. `create` is the answer of the cluster to
`Create(ctx, &gcrd.Schema, ...)`. Returns the clientset after the call and the returned
`error` (`none` is `nil`). -/
def RegisterSchema {H : Type} (create : CustomResourceDefinition → CreateResult)
    (c : Clientset H) (gcrd : Kind) : Clientset H × Option Error :=
  let ver := gcrd.ver
  match c.CRDs.lookup ver with
  | some _ => (c, some Error.ErrCRDAlreadyRegistered)
  | none =>
    let r := create gcrd.Schema
    match r.err with
    | some err =>
      if !IsAlreadyExists err then (c, some err)
      else ({ c with CRDs := c.CRDs.insert ver r.crd }, none)
    | none => ({ c with CRDs := c.CRDs.insert ver r.crd }, none)

/-- The method `Clientset.GetResource`: the returned pair `(resource, err)`. -/
def GetResource {H : Type} (c : Clientset H) (gk : GroupKind) (nspace : String)
    (versions : List String) : Option H × Option Error :=
  match c.mapper gk versions with
  | Except.error err => (none, some err)
  | Except.ok mapping =>
    if mapping.ScopeName == RESTScopeNameNamespace then
      (some (c.Dynamic.Namespace (c.Dynamic.Resource mapping.Resource) nspace), none)
    else
      (some (c.Dynamic.Resource mapping.Resource), none)


/-- A handle as the dynamic client of client-go builds it: the resource and the namespace
it is bound to, the unqualified handle having the empty namespace. -/
structure ResourceHandle where
  resource : GroupVersionResource
  nspace : String
  deriving DecidableEq, Repr

/-- The dynamic client over `ResourceHandle`. -/
def clientDynamic : DynamicInterface ResourceHandle where
  Resource := fun gvr => { resource := gvr, nspace := "" }
  Namespace := fun h ns => { h with nspace := ns }

/-- A mapper that knows the namespaced kind `Dashboard` and the cluster kind `Tenant` of
the group `grafana.com` and nothing else. -/
def sampleMapper (gk : GroupKind) (_versions : List String) : Except Error RESTMapping :=
  if gk = ⟨"grafana.com", "Dashboard"⟩ then
    Except.ok { Resource := ⟨"grafana.com", "v1", "dashboards"⟩,
                GroupVersionKind := ⟨"grafana.com", "v1", "Dashboard"⟩,
                ScopeName := RESTScopeNameNamespace }
  else if gk = ⟨"grafana.com", "Tenant"⟩ then
    Except.ok { Resource := ⟨"grafana.com", "v1", "tenants"⟩,
                GroupVersionKind := ⟨"grafana.com", "v1", "Tenant"⟩,
                ScopeName := RESTScopeNameRoot }
  else Except.error (Error.other "no matches for kind")

/-- A clientset as `NewClientset` returns it: the registry is empty. -/
def sampleClientset : Clientset ResourceHandle :=
  { CRDs := ∅, Dynamic := clientDynamic, mapper := sampleMapper }

/-- The schema of the kind `Dashboard`. -/
def dashboardKind : Kind :=
  { GVK := ⟨"grafana.com", "v1", "Dashboard"⟩,
    Schema := ⟨"dashboards.grafana.com", "dashboard schema", []⟩ }

/-- The schema of the kind `Playlist`, of the same group and version as `dashboardKind`. -/
def playlistKind : Kind :=
  { GVK := ⟨"grafana.com", "v1", "Playlist"⟩,
    Schema := ⟨"playlists.grafana.com", "playlist schema", []⟩ }

/-- A cluster that accepts every schema and marks it established. -/
def acceptAll (crd : CustomResourceDefinition) : CreateResult :=
  { crd := { crd with Conditions := ["Established"] }, err := none }

/-- A cluster in which every schema exists already. -/
def existsAlready (_crd : CustomResourceDefinition) : CreateResult :=
  { crd := CustomResourceDefinition.zero,
    err := some (Error.StatusError "AlreadyExists" "customresourcedefinitions already exists") }

/-- A cluster that refuses every request. -/
def forbidAll (_crd : CustomResourceDefinition) : CreateResult :=
  { crd := CustomResourceDefinition.zero,
    err := some (Error.StatusError "Forbidden" "customresourcedefinitions is forbidden") }

/-! ## Interleaved callers of `RegisterSchema`

`RegisterSchema` touches the shared map in two critical sections, one under `RLock` and one
under `Lock`, with the remote call between them. A caller therefore advances in three atomic
steps, and a run of several callers is an interleaving of their steps. -/

/-- Where one caller of `RegisterSchema` stands: before the existence check, before the
remote `Create`, before the write of the value it got, or returned with its `error`. -/
inductive PC where
  | check : PC
  | create : PC
  | record (crd : CustomResourceDefinition) : PC
  | returned (err : Option Error) : PC
  deriving DecidableEq, Repr

/-- One atomic step of a caller registering `gcrd`; `answer` is what the cluster replies
if this step is the remote `Create`. -/
def stepCaller (gcrd : Kind) (answer : CreateResult) (CRDs : Registry) : PC → Registry × PC
  | PC.check =>
    match CRDs.lookup gcrd.ver with
    | some _ => (CRDs, PC.returned (some Error.ErrCRDAlreadyRegistered))
    | none => (CRDs, PC.create)
  | PC.create =>
    match answer.err with
    | some err =>
      if !IsAlreadyExists err then (CRDs, PC.returned (some err))
      else (CRDs, PC.record answer.crd)
    | none => (CRDs, PC.record answer.crd)
  | PC.record crd => (CRDs.insert gcrd.ver crd, PC.returned none)
  | PC.returned err => (CRDs, PC.returned err)

/-- The shared registry together with the position of every caller. -/
structure System where
  CRDs : Registry
  pcs : List PC

/-- The start: an empty registry (as `NewClientset` makes it) and every caller before its
existence check. -/
def System.init (kinds : List Kind) : System :=
  { CRDs := ∅, pcs := kinds.map (fun _ => PC.check) }

/-- The scheduler lets caller `e.1` take its next step, the cluster answering `e.2`.
An index that names no caller changes nothing. -/
def System.step (kinds : List Kind) (s : System) (e : Nat × CreateResult) : System :=
  match kinds[e.1]?, s.pcs[e.1]? with
  | some gcrd, some pc =>
    { CRDs := (stepCaller gcrd e.2 s.CRDs pc).1, pcs := s.pcs.set e.1 (stepCaller gcrd e.2 s.CRDs pc).2 }
  | _, _ => s

/-- Runs a whole schedule. -/
def System.run (kinds : List Kind) (sched : List (Nat × CreateResult)) (s : System) : System :=
  sched.foldl (System.step kinds) s

/-- Whether a caller has returned. -/
def PC.isReturned : PC → Bool
  | PC.returned _ => true
  | _ => false

/-- Every caller has returned. -/
def System.allReturned (s : System) : Bool := s.pcs.all PC.isReturned

/-- How far a caller has come: the number of atomic steps it has taken. -/
def PC.rank : PC → Nat
  | PC.check => 0
  | PC.create => 1
  | PC.record _ => 2
  | PC.returned _ => 3

/-- What every reachable state of the interleaved callers satisfies when the GroupVersions
are pairwise distinct and every create succeeds: no caller has returned an error, and the
keys of the registry are the GroupVersions of the callers that have returned. -/
structure System.Inv (kinds : List Kind) (s : System) : Prop where
  length_eq : s.pcs.length = kinds.length
  no_error : ∀ (i : Nat) (err : Error), s.pcs[i]? ≠ some (PC.returned (some err))
  keys_iff : ∀ gv : GroupVersion, gv ∈ s.CRDs.keys ↔
    ∃ (i : Nat) (k : Kind), kinds[i]? = some k ∧ k.ver = gv ∧ s.pcs[i]? = some (PC.returned none)

/-- Two distinct schemas of one group and version, registered one after the other. -/
def collidingKinds : List Kind := [dashboardKind, playlistKind]

/-- The schedule that runs the two callers of `collidingKinds` one after the other on a
cluster that accepts both schemas. -/
def collidingSchedule : List (Nat × CreateResult) :=
  [(0, acceptAll dashboardKind.Schema), (0, acceptAll dashboardKind.Schema),
   (0, acceptAll dashboardKind.Schema), (1, acceptAll playlistKind.Schema),
   (1, acceptAll playlistKind.Schema), (1, acceptAll playlistKind.Schema)]

/-- The schema of the kind `Folder`, in a group of its own. -/
def folderKind : Kind :=
  { GVK := ⟨"folder.grafana.com", "v1", "Folder"⟩,
    Schema := ⟨"folders.folder.grafana.com", "folder schema", []⟩ }

/-- An interleaving of two callers, the first registering `dashboardKind` and the second
`folderKind`: both pass the check and call the cluster before either one writes. -/
def interleavedSchedule : List (Nat × CreateResult) :=
  [(0, acceptAll dashboardKind.Schema), (1, acceptAll folderKind.Schema),
   (1, acceptAll folderKind.Schema), (0, acceptAll dashboardKind.Schema),
   (1, acceptAll folderKind.Schema), (0, acceptAll dashboardKind.Schema)]

end bridge

namespace mtctx

/-! ## Data model of `service_impl.go` -/

/-- The handle `*session.SessionDB` that `GetSqlxSession` hands out. -/
structure SessionDB where
  handle : Nat
  deriving DecidableEq, Repr

/-- The struct `TenantInfo`; `SessionDB` is a pointer and may be nil. -/
structure TenantInfo where
  StackID : Int
  SessionDB : Option SessionDB
  deriving DecidableEq, Repr

/-- The fields of `v1.ConfigMap` that are read: its name and the `Data` map (a nil map
reads as the empty one). -/
structure ConfigMap where
  Name : String
  Data : AList (fun _ : String => String)
  deriving DecidableEq

/-- The zero value `v1.ConfigMap{}`. -/
def ConfigMap.zero : ConfigMap := { Name := "", Data := ∅ }

/-- The answer of `ConfigMaps(ns).Get(ctx, name, opts)`. The typed client allocates the
result object before it sends the request and decodes into it only when the request
succeeded: a failed call returns the zero object together with the error. -/
inductive GetResult where
  | ok (config : ConfigMap) : GetResult
  | failed (err : String) : GetResult

/-- The pointer `config` that `Middleware` holds after the call. -/
def GetResult.config : GetResult → Option ConfigMap
  | GetResult.ok config => some config
  | GetResult.failed _ => some ConfigMap.zero

/-- The signed-in user; only `StackID` (an `int64`) is read. -/
structure SignedInUser where
  StackID : Int
  deriving DecidableEq, Repr

/-- The request: `RequestURI` and the context it carries. -/
structure Request (Ctx : Type) where
  RequestURI : String
  ctx : Ctx

/-- A pointer to a `TenantInfo` on the heap. -/
abbrev Ptr := Nat

/-- The heap of `TenantInfo` objects; an address is a position in it. -/
abbrev Heap := List TenantInfo

/-- What lies outside `service_impl.go`: `appcontext.User`, `ContextWithTenantInfo`, the
cluster's answer to `ConfigMaps(namespace).Get(name)`, `json.Unmarshal` into the nested
string map, `setting.FromJSON`, `sqlstore.NewSQLStore` and `GetSqlxSession`. -/
structure Externals (Ctx Cfg Store : Type) where
  User : Ctx → Except String SignedInUser
  ContextWithTenantInfo : Ctx → Option Ptr → Ctx
  Get : String → String → GetResult
  Unmarshal : String → Except String (List (String × List (String × String)))
  FromJSON : List (String × List (String × String)) → Except String Cfg
  NewSQLStore : Cfg → Except String Store
  GetSqlxSession : Store → Option SessionDB

/-- The struct `serviceImpl`: whether a cluster client is set, and the cache
`map[int64]*TenantInfo`. -/
structure serviceImpl where
  clientset : Bool
  cache : AList (fun _ : Int => Option Ptr)

/-- What a request makes the middleware do, in order. -/
inductive Event (Ctx : Type) where
  | getConfigMap (nspace : String) (name : String) : Event Ctx
  | build (stackID : Int) : Event Ctx
  | next (r : Request Ctx) : Event Ctx

/-- The function `strings.HasPrefix`. -/
def HasPrefix (s : String) (pre : String) : Bool :=
  decide (s.length ≥ pre.length) && (s.data.take pre.length == pre.data)

/-- The base 10 loop of `fmt`: while `u >= 10` it writes the digit `'0' + u - next*10`
in front of what is written already and goes on with `next = u / 10`; the last digit is
`digits[u]`. -/
def fmtDigits (u : Nat) (buf : List Char) : List Char :=
  if h : u ≥ 10 then
    fmtDigits (u / 10) (Char.ofNat (48 + (u - (u / 10) * 10)) :: buf)
  else
    Char.ofNat (48 + u) :: buf
termination_by u
decreasing_by omega

/-- The verb `%d` applied to an `int64`: `fmtInteger` gets `uint64(v)`, takes it as
negative when `int64(u) < 0`, negates it in 64 bits, writes the digits and then the sign. -/
def fmtInteger (v : Int) : String :=
  let u : Nat := (v % 2 ^ 64).toNat
  let negative : Bool := decide (u ≥ 2 ^ 63)
  let u : Nat := if negative then (2 ^ 64 - u) % 2 ^ 64 else u
  String.mk (if negative then '-' :: fmtDigits u [] else fmtDigits u [])

/-- The function `stackName`: `fmt.Sprintf("%d-mt-config", stackID)`. -/
def stackName (stackID : Int) : String :=
  fmtInteger stackID ++ "-mt-config"

/-- The function `initializeDBConnection`. -/
def initializeDBConnection {Ctx Cfg Store : Type} (ext : Externals Ctx Cfg Store)
    (config : Option ConfigMap) : Option SessionDB :=
  match config with
  | none => none
  | some config =>
    match config.Data.lookup "ini" with
    | none => none
    | some jsontxt =>
      match ext.Unmarshal jsontxt with
      | Except.error _ => none
      | Except.ok jsonmap =>
        match ext.FromJSON jsonmap with
        | Except.error _ => none
        | Except.ok cfg =>
          match ext.NewSQLStore cfg with
          | Except.error _ => none
          | Except.ok ss => ext.GetSqlxSession ss

/-- The function `buildTenantInfoFromConfig`: allocates the `TenantInfo` and returns the
heap with it and its address. -/
def buildTenantInfoFromConfig {Ctx Cfg Store : Type} (ext : Externals Ctx Cfg Store)
    (heap : Heap) (stackID : Int) (config : Option ConfigMap) : Heap × Ptr :=
  let dbCon := initializeDBConnection ext config
  (heap ++ [{ StackID := stackID, SessionDB := dbCon }], heap.length)

/-- The service, the heap and the events after one request. -/
structure Outcome (Ctx : Type) where
  s : serviceImpl
  heap : Heap
  events : List (Event Ctx)

/-- The handler returned by `serviceImpl.Middleware`, applied to the request `r`. -/
def Middleware {Ctx Cfg Store : Type} (ext : Externals Ctx Cfg Store) (s : serviceImpl)
    (heap : Heap) (r : Request Ctx) : Outcome Ctx :=
  if !HasPrefix r.RequestURI "/api" then
    { s := s, heap := heap, events := [Event.next r] }
  else
    match ext.User r.ctx with
    | Except.error _ => { s := s, heap := heap, events := [Event.next r] }
    | Except.ok user =>
      match s.cache.lookup user.StackID with
      | some info =>
        { s := s, heap := heap,
          events := [Event.next { r with ctx := ext.ContextWithTenantInfo r.ctx info }] }
      | none =>
        let config : Option ConfigMap :=
          if s.clientset then (ext.Get "hosted-grafana" (stackName user.StackID)).config
          else none
        let fetched : List (Event Ctx) :=
          if s.clientset then [Event.getConfigMap "hosted-grafana" (stackName user.StackID)]
          else []
        let built := buildTenantInfoFromConfig ext heap user.StackID config
        { s := { s with cache := s.cache.insert user.StackID (some built.2) },
          heap := built.1,
          events := fetched ++ [Event.build user.StackID,
            Event.next { r with ctx := ext.ContextWithTenantInfo r.ctx (some built.2) }] }

/-- A context for the examples: the signed-in user, if any, and the tenant pointer, if one
was attached. -/
structure SampleCtx where
  user : Option SignedInUser
  tenant : Option (Option Ptr)
  deriving DecidableEq, Repr

/-- A cluster that holds the configuration of tenant 42 and of no other tenant, with a
settings parser and a store factory that accept it. -/
def sampleExternals : Externals SampleCtx String Nat where
  User := fun ctx =>
    match ctx.user with
    | some u => Except.ok u
    | none => Except.error "a SignedInUser was not found in the context"
  ContextWithTenantInfo := fun ctx info => { ctx with tenant := some info }
  Get := fun _ name =>
    if name = "42-mt-config" then GetResult.ok { Name := name, Data := AList.singleton "ini" "{}" }
    else GetResult.failed "configmaps not found"
  Unmarshal := fun txt => if txt = "{}" then Except.ok [] else Except.error "invalid character"
  FromJSON := fun _ => Except.ok "cfg"
  NewSQLStore := fun _ => Except.ok 1
  GetSqlxSession := fun store => some { handle := store }

/-- A service with a cluster client and an empty cache. -/
def sampleService : serviceImpl := { clientset := true, cache := ∅ }

/-- An API request of a user of tenant `stackID`. -/
def apiRequest (stackID : Int) : Request SampleCtx :=
  { RequestURI := "/api/tenant", ctx := { user := some { StackID := stackID }, tenant := none } }

/-- An API request without a signed-in user. -/
def anonymousRequest : Request SampleCtx :=
  { RequestURI := "/api/tenant", ctx := { user := none, tenant := none } }

end mtctx

/-! ## Theorems about `clientset.go` -/

namespace bridge

/-- C1: when the registry has no entry for the schema's GroupVersion and the remote create
succeeds, the first `RegisterSchema` returns nil and a second `RegisterSchema` of the same
schema on the resulting clientset returns `ErrCRDAlreadyRegistered`, whatever the cluster
would answer the second time. -/
theorem registerSchema_twice {H : Type} (create₁ create₂ : CustomResourceDefinition → CreateResult)
    (c : Clientset H) (gcrd : Kind)
    (habsent : c.CRDs.lookup gcrd.ver = none)
    (hok : (create₁ gcrd.Schema).err = none) :
    (RegisterSchema create₁ c gcrd).2 = none ∧
    (RegisterSchema create₂ (RegisterSchema create₁ c gcrd).1 gcrd).2
      = some Error.ErrCRDAlreadyRegistered := by
  have h1 : RegisterSchema create₁ c gcrd
      = ({ c with CRDs := c.CRDs.insert gcrd.ver (create₁ gcrd.Schema).crd }, none) := by
    simp [RegisterSchema, habsent, hok]
  constructor
  · rw [h1]
  · rw [h1]
    simp [RegisterSchema, AList.lookup_insert]

/-- Witness of C1 on the empty clientset and the dashboard schema. -/
theorem registerSchema_twice_witness :
    (RegisterSchema acceptAll sampleClientset dashboardKind).2 = none ∧
    (RegisterSchema forbidAll (RegisterSchema acceptAll sampleClientset dashboardKind).1
      dashboardKind).2 = some Error.ErrCRDAlreadyRegistered :=
  registerSchema_twice acceptAll forbidAll sampleClientset dashboardKind rfl rfl

/-- C2: when the registry has no entry for the schema's GroupVersion and the remote create
reports AlreadyExists, `RegisterSchema` returns nil and the registry then holds an entry
under that GroupVersion, namely the object the create call returned. -/
theorem registerSchema_alreadyExists {H : Type} (create : CustomResourceDefinition → CreateResult)
    (c : Clientset H) (gcrd : Kind) (err : Error)
    (habsent : c.CRDs.lookup gcrd.ver = none)
    (herr : (create gcrd.Schema).err = some err)
    (hexists : IsAlreadyExists err = true) :
    (RegisterSchema create c gcrd).2 = none ∧
    (RegisterSchema create c gcrd).1.CRDs.lookup gcrd.ver = some (create gcrd.Schema).crd ∧
    gcrd.ver ∈ (RegisterSchema create c gcrd).1.CRDs.keys := by
  have h1 : RegisterSchema create c gcrd
      = ({ c with CRDs := c.CRDs.insert gcrd.ver (create gcrd.Schema).crd }, none) := by
    simp [RegisterSchema, habsent, herr, hexists]
  rw [h1]
  simp [AList.lookup_insert]

/-- Witness of C2 on the empty clientset and a cluster where the schema exists already. -/
theorem registerSchema_alreadyExists_witness :
    (RegisterSchema existsAlready sampleClientset dashboardKind).2 = none ∧
    (RegisterSchema existsAlready sampleClientset dashboardKind).1.CRDs.lookup dashboardKind.ver
      = some (existsAlready dashboardKind.Schema).crd ∧
    dashboardKind.ver ∈ (RegisterSchema existsAlready sampleClientset dashboardKind).1.CRDs.keys :=
  registerSchema_alreadyExists existsAlready sampleClientset dashboardKind
    (Error.StatusError "AlreadyExists" "customresourcedefinitions already exists") rfl rfl rfl

/-- C7: when the registry has no entry for the schema's GroupVersion and the remote create
fails with an error that is not AlreadyExists, `RegisterSchema` returns exactly that error
and the clientset, its registry included, is unchanged: no entry is recorded. -/
theorem registerSchema_remoteError {H : Type} (create : CustomResourceDefinition → CreateResult)
    (c : Clientset H) (gcrd : Kind) (err : Error)
    (habsent : c.CRDs.lookup gcrd.ver = none)
    (herr : (create gcrd.Schema).err = some err)
    (hother : IsAlreadyExists err = false) :
    (RegisterSchema create c gcrd).2 = some err ∧
    (RegisterSchema create c gcrd).1 = c ∧
    (RegisterSchema create c gcrd).1.CRDs.lookup gcrd.ver = none := by
  have h1 : RegisterSchema create c gcrd = (c, some err) := by
    simp [RegisterSchema, habsent, herr, hother]
  rw [h1]
  exact ⟨rfl, rfl, habsent⟩

/-- Witness of C7 on the empty clientset and a cluster that forbids the create. -/
theorem registerSchema_remoteError_witness :
    (RegisterSchema forbidAll sampleClientset dashboardKind).2
      = some (Error.StatusError "Forbidden" "customresourcedefinitions is forbidden") ∧
    (RegisterSchema forbidAll sampleClientset dashboardKind).1 = sampleClientset ∧
    (RegisterSchema forbidAll sampleClientset dashboardKind).1.CRDs.lookup dashboardKind.ver
      = none :=
  registerSchema_remoteError forbidAll sampleClientset dashboardKind
    (Error.StatusError "Forbidden" "customresourcedefinitions is forbidden") rfl rfl rfl

/-- C3: when the REST mapper returns a mapping, a Namespaced scope makes `GetResource` return
the handle of `mapping.Resource` bound to exactly the supplied namespace, and a Cluster scope
makes it return the unqualified handle of `mapping.Resource`, the same for every namespace
argument; in both cases the returned error is nil. -/
theorem getResource_scope {H : Type} (c : Clientset H) (gk : GroupKind) (nspace : String)
    (versions : List String) (mapping : RESTMapping)
    (hmap : c.mapper gk versions = Except.ok mapping) :
    (mapping.ScopeName = RESTScopeNameNamespace →
      GetResource c gk nspace versions
        = (some (c.Dynamic.Namespace (c.Dynamic.Resource mapping.Resource) nspace), none)) ∧
    (mapping.ScopeName = RESTScopeNameRoot →
      ∀ other : String, GetResource c gk other versions
        = (some (c.Dynamic.Resource mapping.Resource), none)) := by
  constructor
  · intro hs
    simp [GetResource, hmap, hs]
  · intro hs other
    simp [GetResource, hmap, hs, RESTScopeNameRoot, RESTScopeNameNamespace]

/-- Witness of C3: the namespaced kind `Dashboard` and the cluster kind `Tenant`. -/
theorem getResource_scope_witness :
    GetResource sampleClientset ⟨"grafana.com", "Dashboard"⟩ "team-a" []
      = (some { resource := ⟨"grafana.com", "v1", "dashboards"⟩, nspace := "team-a" }, none) ∧
    GetResource sampleClientset ⟨"grafana.com", "Tenant"⟩ "team-a" []
      = (some { resource := ⟨"grafana.com", "v1", "tenants"⟩, nspace := "" }, none) ∧
    GetResource sampleClientset ⟨"grafana.com", "Tenant"⟩ "team-b" []
      = (some { resource := ⟨"grafana.com", "v1", "tenants"⟩, nspace := "" }, none) :=
  ⟨(getResource_scope sampleClientset ⟨"grafana.com", "Dashboard"⟩ "team-a" []
      { Resource := ⟨"grafana.com", "v1", "dashboards"⟩,
        GroupVersionKind := ⟨"grafana.com", "v1", "Dashboard"⟩,
        ScopeName := RESTScopeNameNamespace } rfl).1 rfl,
   (getResource_scope sampleClientset ⟨"grafana.com", "Tenant"⟩ "team-a" []
      { Resource := ⟨"grafana.com", "v1", "tenants"⟩,
        GroupVersionKind := ⟨"grafana.com", "v1", "Tenant"⟩,
        ScopeName := RESTScopeNameRoot } rfl).2 rfl "team-a",
   (getResource_scope sampleClientset ⟨"grafana.com", "Tenant"⟩ "team-a" []
      { Resource := ⟨"grafana.com", "v1", "tenants"⟩,
        GroupVersionKind := ⟨"grafana.com", "v1", "Tenant"⟩,
        ScopeName := RESTScopeNameRoot } rfl).2 rfl "team-b"⟩

/-- C8: when the REST mapper answers with an error, `GetResource` returns that error and a
nil handle; the result is the same for every clientset whose mapper gives that answer, so
it depends on nothing but the mapper's answer. -/
theorem getResource_noMapping {H : Type} (c c' : Clientset H) (gk : GroupKind)
    (nspace nspace' : String) (versions : List String) (err : Error)
    (hmap : c.mapper gk versions = Except.error err)
    (hmap' : c'.mapper gk versions = Except.error err) :
    GetResource c gk nspace versions = (none, some err) ∧
    GetResource c' gk nspace' versions = GetResource c gk nspace versions := by
  simp [GetResource, hmap, hmap']

/-- Witness of C8 on a kind the mapper does not know. -/
theorem getResource_noMapping_witness :
    GetResource sampleClientset ⟨"grafana.com", "Dashbord"⟩ "team-a" ["v1"]
      = (none, some (Error.other "no matches for kind")) ∧
    GetResource sampleClientset ⟨"grafana.com", "Dashbord"⟩ "team-b" ["v1"]
      = GetResource sampleClientset ⟨"grafana.com", "Dashbord"⟩ "team-a" ["v1"] :=
  getResource_noMapping sampleClientset sampleClientset ⟨"grafana.com", "Dashbord"⟩
    "team-a" "team-b" ["v1"] (Error.other "no matches for kind") rfl rfl

end bridge

/-! ## Theorems about `service_impl.go` -/

namespace mtctx

/-- The digit written by the loop is the digit character of core. -/
theorem ofNat_digit (d : Nat) (h : d < 10) : Char.ofNat (48 + d) = Nat.digitChar d := by
  interval_cases d <;> rfl

/-- The base 10 loop writes the digits that `Nat.toDigitsCore` writes, given enough fuel. -/
theorem fmtDigits_eq_toDigitsCore (fuel : Nat) :
    ∀ (u : Nat) (buf : List Char), u < fuel →
      fmtDigits u buf = Nat.toDigitsCore 10 fuel u buf := by
  induction fuel with
  | zero => intro u buf h; omega
  | succ fuel ih =>
    intro u buf h
    rw [fmtDigits]
    by_cases hu : u ≥ 10
    · have hne : u / 10 ≠ 0 := by omega
      have hd : u - u / 10 * 10 = u % 10 := by omega
      have hlt : u / 10 < fuel := by omega
      simp only [hu, ↓reduceDIte, Nat.toDigitsCore, hne, ↓reduceIte, hd]
      rw [ih (u / 10) _ hlt, ofNat_digit _ (Nat.mod_lt _ (by decide))]
    · have hz : u / 10 = 0 := by omega
      have hm : u % 10 = u := by omega
      simp only [hu, ↓reduceDIte, Nat.toDigitsCore, hz, ↓reduceIte, hm]
      rw [ofNat_digit _ (by omega)]

/-- The loop started on the empty buffer gives the decimal digits of core. -/
theorem fmtDigits_nil (u : Nat) : fmtDigits u [] = Nat.toDigits 10 u :=
  fmtDigits_eq_toDigitsCore (u + 1) u [] (Nat.lt_succ_self u)

/-- On every `int64` the verb `%d` writes the decimal rendering of the number. -/
theorem fmtInteger_eq_toString (v : Int) (hlo : -2 ^ 63 ≤ v) (hhi : v < 2 ^ 63) :
    fmtInteger v = toString v := by
  cases v with
  | ofNat m =>
    have hhi' : (m : Int) < 2 ^ 63 := hhi
    have hm : m < 2 ^ 63 := by omega
    have h1 : ((Int.ofNat m) % 2 ^ 64).toNat = m := by
      have : (Int.ofNat m) % 2 ^ 64 = (m : Int) := by
        apply Int.emod_eq_of_lt
        · exact Int.ofNat_nonneg m
        · show (m : Int) < 2 ^ 64
          omega
      rw [this]; rfl
    have h2 : ¬ (m ≥ 2 ^ 63) := by omega
    simp only [fmtInteger, h1, h2, decide_False, Bool.false_eq_true, ↓reduceIte, fmtDigits_nil]
    rfl
  | negSucc m =>
    have hm : m + 1 ≤ 2 ^ 63 := by
      have : -(2 : Int) ^ 63 ≤ -((m : Int) + 1) := by
        have h := hlo
        rw [Int.negSucc_eq] at h
        exact h
      omega
    have h1 : ((Int.negSucc m) % 2 ^ 64).toNat = 2 ^ 64 - (m + 1) := by
      have : (Int.negSucc m) % 2 ^ 64 = ((2 ^ 64 - (m + 1) : Nat) : Int) := by
        rw [Int.negSucc_eq]
        have e : (-((m : Int) + 1)) % 2 ^ 64 = (-((m : Int) + 1) + 2 ^ 64) % 2 ^ 64 := by
          rw [Int.add_emod_self]
        rw [e]
        rw [Int.emod_eq_of_lt (by omega) (by omega)]
        omega
      rw [this]; rfl
    have h2 : 2 ^ 64 - (m + 1) ≥ 2 ^ 63 := by omega
    have h3 : (2 ^ 64 - (2 ^ 64 - (m + 1))) % 2 ^ 64 = m + 1 := by
      have : 2 ^ 64 - (2 ^ 64 - (m + 1)) = m + 1 := by omega
      rw [this]; exact Nat.mod_eq_of_lt (by omega)
    simp only [fmtInteger, h1, h2, decide_True, ↓reduceIte, h3, fmtDigits_nil]
    rfl

/-- On every `int64`, `stackName` is the decimal rendering followed by `-mt-config`. -/
theorem stackName_eq (stackID : Int) (hlo : -2 ^ 63 ≤ stackID) (hhi : stackID < 2 ^ 63) :
    stackName stackID = toString stackID ++ "-mt-config" := by
  rw [stackName, fmtInteger_eq_toString stackID hlo hhi]

/-- The name of the configuration object of tenant 7. -/
theorem stackName_seven : stackName 7 = "7-mt-config" := by
  rw [stackName_eq 7 (by decide) (by decide)]; rfl

/-- On a cache miss the middleware fetches (when it has a client), builds, stores the new
pointer under the tenant and calls the next handler with it. -/
theorem middleware_miss {Ctx Cfg Store : Type} (ext : Externals Ctx Cfg Store)
    (s : serviceImpl) (heap : Heap) (r : Request Ctx) (user : SignedInUser)
    (hapi : HasPrefix r.RequestURI "/api" = true)
    (huser : ext.User r.ctx = Except.ok user)
    (hmiss : s.cache.lookup user.StackID = none) :
    Middleware ext s heap r =
      { s := { s with cache := s.cache.insert user.StackID (some heap.length) },
        heap := heap ++ [{ StackID := user.StackID,
                           SessionDB := initializeDBConnection ext
                             (if s.clientset then
                                (ext.Get "hosted-grafana" (stackName user.StackID)).config
                              else none) }],
        events := (if s.clientset then
                     [Event.getConfigMap "hosted-grafana" (stackName user.StackID)]
                   else []) ++
                  [Event.build user.StackID,
                   Event.next { r with ctx := ext.ContextWithTenantInfo r.ctx (some heap.length) }] } := by
  simp [Middleware, hapi, huser, hmiss, buildTenantInfoFromConfig]

/-- On a cache hit the middleware only calls the next handler with the cached pointer. -/
theorem middleware_hit {Ctx Cfg Store : Type} (ext : Externals Ctx Cfg Store)
    (s : serviceImpl) (heap : Heap) (r : Request Ctx) (user : SignedInUser) (info : Option Ptr)
    (hapi : HasPrefix r.RequestURI "/api" = true)
    (huser : ext.User r.ctx = Except.ok user)
    (hhit : s.cache.lookup user.StackID = some info) :
    Middleware ext s heap r =
      { s := s, heap := heap,
        events := [Event.next { r with ctx := ext.ContextWithTenantInfo r.ctx info }] } := by
  simp [Middleware, hapi, huser, hhit]

/-- C4: of two consecutive `/api` requests by users of tenant `T`, the second one passes to
the next handler the very pointer the first one passed, fetches no configuration, builds
nothing, and leaves the cache and the heap as the first request left them. This holds for
every service state and whatever the cluster would answer. -/
theorem middleware_twice_same_instance {Ctx Cfg Store : Type}
    (ext₁ ext₂ : Externals Ctx Cfg Store) (s : serviceImpl) (heap : Heap)
    (r₁ r₂ : Request Ctx) (u₁ u₂ : SignedInUser) (T : Int)
    (hapi₁ : HasPrefix r₁.RequestURI "/api" = true)
    (hapi₂ : HasPrefix r₂.RequestURI "/api" = true)
    (huser₁ : ext₁.User r₁.ctx = Except.ok u₁)
    (huser₂ : ext₂.User r₂.ctx = Except.ok u₂)
    (hT₁ : u₁.StackID = T) (hT₂ : u₂.StackID = T) :
    ∃ info : Option Ptr,
      (Middleware ext₁ s heap r₁).s.cache.lookup T = some info ∧
      (Middleware ext₁ s heap r₁).events.getLast?
        = some (Event.next { r₁ with ctx := ext₁.ContextWithTenantInfo r₁.ctx info }) ∧
      (Middleware ext₂ (Middleware ext₁ s heap r₁).s (Middleware ext₁ s heap r₁).heap r₂).events
        = [Event.next { r₂ with ctx := ext₂.ContextWithTenantInfo r₂.ctx info }] ∧
      (Middleware ext₂ (Middleware ext₁ s heap r₁).s (Middleware ext₁ s heap r₁).heap r₂).s
        = (Middleware ext₁ s heap r₁).s ∧
      (Middleware ext₂ (Middleware ext₁ s heap r₁).s (Middleware ext₁ s heap r₁).heap r₂).heap
        = (Middleware ext₁ s heap r₁).heap := by
  subst hT₁
  cases hc : s.cache.lookup u₁.StackID with
  | some info =>
    refine ⟨info, ?_⟩
    rw [middleware_hit ext₁ s heap r₁ u₁ info hapi₁ huser₁ hc]
    have hc₂ : s.cache.lookup u₂.StackID = some info := by rw [hT₂]; exact hc
    rw [middleware_hit ext₂ s heap r₂ u₂ info hapi₂ huser₂ hc₂]
    exact ⟨hc, rfl, rfl, rfl, rfl⟩
  | none =>
    refine ⟨some heap.length, ?_⟩
    rw [middleware_miss ext₁ s heap r₁ u₁ hapi₁ huser₁ hc]
    have hc₂ : (s.cache.insert u₁.StackID (some heap.length)).lookup u₂.StackID
        = some (some heap.length) := by
      rw [hT₂]; exact AList.lookup_insert _
    rw [middleware_hit ext₂ _ _ r₂ u₂ (some heap.length) hapi₂ huser₂ hc₂]
    refine ⟨AList.lookup_insert _, ?_, rfl, rfl, rfl⟩
    simp

/-- Witness of C4: two requests of tenant 42 on the empty cache; the second one hands on
the pointer `0` that the first one allocated and does nothing else. -/
theorem middleware_twice_same_instance_witness :
    (Middleware sampleExternals sampleService [] (apiRequest 42)).s.cache.lookup 42
      = some (some 0) ∧
    (Middleware sampleExternals (Middleware sampleExternals sampleService [] (apiRequest 42)).s
        (Middleware sampleExternals sampleService [] (apiRequest 42)).heap (apiRequest 42)).events
      = [Event.next { RequestURI := "/api/tenant",
                      ctx := { user := some { StackID := 42 }, tenant := some (some 0) } }] ∧
    (Middleware sampleExternals (Middleware sampleExternals sampleService [] (apiRequest 42)).s
        (Middleware sampleExternals sampleService [] (apiRequest 42)).heap (apiRequest 42)).s
      = (Middleware sampleExternals sampleService [] (apiRequest 42)).s ∧
    (Middleware sampleExternals (Middleware sampleExternals sampleService [] (apiRequest 42)).s
        (Middleware sampleExternals sampleService [] (apiRequest 42)).heap (apiRequest 42)).heap
      = (Middleware sampleExternals sampleService [] (apiRequest 42)).heap := by
  obtain ⟨info, h1, -, h3, h4, h5⟩ :=
    middleware_twice_same_instance sampleExternals sampleExternals sampleService []
      (apiRequest 42) (apiRequest 42) { StackID := 42 } { StackID := 42 } 42
      (by decide) (by decide) rfl rfl rfl rfl
  have e : (Middleware sampleExternals sampleService [] (apiRequest 42)).s.cache.lookup 42
      = some (some 0) := by decide
  have hinfo : info = some 0 := Option.some.inj (h1.symm.trans e)
  subst hinfo
  exact ⟨e, h3, h4, h5⟩

/-- C5: for a tenant that is not in the cache, when the service has no cluster client, or
the fetch of the configuration object fails, or the object has no `ini` key, the middleware
allocates a `TenantInfo` with `StackID` the tenant and a nil `SessionDB`, stores its pointer
in the cache under the tenant and calls the next handler with that pointer; the request is
not rejected. -/
theorem middleware_build_degraded {Ctx Cfg Store : Type} (ext : Externals Ctx Cfg Store)
    (s : serviceImpl) (heap : Heap) (r : Request Ctx) (user : SignedInUser)
    (hapi : HasPrefix r.RequestURI "/api" = true)
    (huser : ext.User r.ctx = Except.ok user)
    (hmiss : s.cache.lookup user.StackID = none)
    (hcfg : s.clientset = false ∨
      (∃ err, ext.Get "hosted-grafana" (stackName user.StackID) = GetResult.failed err) ∨
      (∃ config, ext.Get "hosted-grafana" (stackName user.StackID) = GetResult.ok config ∧
        config.Data.lookup "ini" = none)) :
    (Middleware ext s heap r).heap = heap ++ [{ StackID := user.StackID, SessionDB := none }] ∧
    (Middleware ext s heap r).heap[heap.length]?
      = some { StackID := user.StackID, SessionDB := none } ∧
    (Middleware ext s heap r).s.cache.lookup user.StackID = some (some heap.length) ∧
    (Middleware ext s heap r).events.getLast?
      = some (Event.next { r with ctx := ext.ContextWithTenantInfo r.ctx (some heap.length) }) := by
  have hdb : initializeDBConnection ext
      (if s.clientset then (ext.Get "hosted-grafana" (stackName user.StackID)).config
       else none) = none := by
    rcases hcfg with h | ⟨err, h⟩ | ⟨config, h, hini⟩
    · simp [h, initializeDBConnection]
    · cases hcs : s.clientset
      · simp [initializeDBConnection]
      · simp only [h, GetResult.config, ↓reduceIte, initializeDBConnection]
        rfl
    · cases hcs : s.clientset
      · simp [initializeDBConnection]
      · simp [h, GetResult.config, initializeDBConnection, hini]
  rw [middleware_miss ext s heap r user hapi huser hmiss, hdb]
  refine ⟨rfl, ?_, AList.lookup_insert _, ?_⟩
  · simp
  · simp

/-- Witness of C5: tenant 7 has no configuration object in the sample cluster. -/
theorem middleware_build_degraded_witness :
    (Middleware sampleExternals sampleService [] (apiRequest 7)).heap
      = [] ++ [{ StackID := 7, SessionDB := none }] ∧
    (Middleware sampleExternals sampleService [] (apiRequest 7)).heap[([] : Heap).length]?
      = some { StackID := 7, SessionDB := none } ∧
    (Middleware sampleExternals sampleService [] (apiRequest 7)).s.cache.lookup 7
      = some (some ([] : Heap).length) ∧
    (Middleware sampleExternals sampleService [] (apiRequest 7)).events.getLast?
      = some (Event.next { apiRequest 7 with
          ctx := sampleExternals.ContextWithTenantInfo (apiRequest 7).ctx
            (some ([] : Heap).length) }) :=
  middleware_build_degraded sampleExternals sampleService [] (apiRequest 7) { StackID := 7 }
    (by decide) rfl rfl
    (Or.inr (Or.inl ⟨"configmaps not found", by
      show sampleExternals.Get "hosted-grafana" (stackName 7) = _
      rw [stackName_seven]; rfl⟩))

/-- C9: for a request whose URI does not start with `/api`, and for an `/api` request whose
user cannot be extracted, the middleware calls the next handler exactly once, with the
original request, and leaves the service (its cache included) and the heap unchanged. -/
theorem middleware_passthrough {Ctx Cfg Store : Type} (ext : Externals Ctx Cfg Store)
    (s : serviceImpl) (heap : Heap) (r : Request Ctx)
    (h : HasPrefix r.RequestURI "/api" = false ∨ ∃ err, ext.User r.ctx = Except.error err) :
    Middleware ext s heap r = { s := s, heap := heap, events := [Event.next r] } := by
  rcases h with h | ⟨err, h⟩
  · simp [Middleware, h]
  · cases hp : HasPrefix r.RequestURI "/api"
    · simp [Middleware, hp]
    · simp [Middleware, hp, h]

/-- Witness of C9: an API request without a signed-in user. -/
theorem middleware_passthrough_witness :
    Middleware sampleExternals sampleService [] anonymousRequest
      = { s := sampleService, heap := [], events := [Event.next anonymousRequest] } :=
  middleware_passthrough sampleExternals sampleService [] anonymousRequest
    (Or.inr ⟨"a SignedInUser was not found in the context", rfl⟩)

/-- C10: for every `int64` tenant identifier, `stackName` is the base 10 rendering of the
identifier followed by `-mt-config`, and on a cache miss a middleware with a cluster client
fetches the object of exactly that name from the namespace `hosted-grafana`, the session
being built from the answer to that fetch. -/
theorem stackName_spec (stackID : Int) (hlo : -2 ^ 63 ≤ stackID) (hhi : stackID < 2 ^ 63) :
    stackName stackID = toString stackID ++ "-mt-config" ∧
    ∀ {Ctx Cfg Store : Type} (ext : Externals Ctx Cfg Store) (s : serviceImpl) (heap : Heap)
      (r : Request Ctx) (user : SignedInUser),
      HasPrefix r.RequestURI "/api" = true → ext.User r.ctx = Except.ok user →
      user.StackID = stackID → s.cache.lookup stackID = none → s.clientset = true →
      (Middleware ext s heap r).events
        = [Event.getConfigMap "hosted-grafana" (toString stackID ++ "-mt-config"),
           Event.build stackID,
           Event.next { r with ctx := ext.ContextWithTenantInfo r.ctx (some heap.length) }] ∧
      (Middleware ext s heap r).heap
        = heap ++ [{ StackID := stackID,
                     SessionDB := initializeDBConnection ext
                       (ext.Get "hosted-grafana" (toString stackID ++ "-mt-config")).config }] := by
  have hname := stackName_eq stackID hlo hhi
  refine ⟨hname, ?_⟩
  intro Ctx Cfg Store ext s heap r user hapi huser hid hmiss hclient
  subst hid
  rw [middleware_miss ext s heap r user hapi huser hmiss]
  simp [hclient, hname]

/-- Witness of C10: tenant 42, whose object is named `42-mt-config`. -/
theorem stackName_spec_witness :
    stackName 42 = "42-mt-config" ∧
    (Middleware sampleExternals sampleService [] (apiRequest 42)).events
      = [Event.getConfigMap "hosted-grafana" "42-mt-config", Event.build 42,
         Event.next { apiRequest 42 with
           ctx := sampleExternals.ContextWithTenantInfo (apiRequest 42).ctx (some 0) }] ∧
    (Middleware sampleExternals sampleService [] (apiRequest 42)).heap
      = [{ StackID := 42, SessionDB := some { handle := 1 } }] :=
  ⟨(stackName_spec 42 (by decide) (by decide)).1,
   ((stackName_spec 42 (by decide) (by decide)).2 sampleExternals sampleService []
      (apiRequest 42) { StackID := 42 } (by decide) rfl rfl rfl rfl).1,
   ((stackName_spec 42 (by decide) (by decide)).2 sampleExternals sampleService []
      (apiRequest 42) { StackID := 42 } (by decide) rfl rfl rfl rfl).2⟩

end mtctx

/-! ## Interleaved registration -/

namespace bridge

/-- The three atomic steps of one caller, taken without interruption, are `RegisterSchema`. -/
theorem registerSchema_eq_steps {H : Type} (create : CustomResourceDefinition → CreateResult)
    (c : Clientset H) (gcrd : Kind) :
    stepCaller gcrd (create gcrd.Schema)
        (stepCaller gcrd (create gcrd.Schema)
          (stepCaller gcrd (create gcrd.Schema) c.CRDs PC.check).1
          (stepCaller gcrd (create gcrd.Schema) c.CRDs PC.check).2).1
        (stepCaller gcrd (create gcrd.Schema)
          (stepCaller gcrd (create gcrd.Schema) c.CRDs PC.check).1
          (stepCaller gcrd (create gcrd.Schema) c.CRDs PC.check).2).2
      = ((RegisterSchema create c gcrd).1.CRDs, PC.returned (RegisterSchema create c gcrd).2) := by
  cases hl : c.CRDs.lookup gcrd.ver with
  | some v => simp [stepCaller, RegisterSchema, hl]
  | none =>
    cases he : (create gcrd.Schema).err with
    | none => simp [stepCaller, RegisterSchema, hl, he]
    | some err =>
      cases hx : IsAlreadyExists err <;> simp [stepCaller, RegisterSchema, hl, he, hx]

/-- Pairwise distinct GroupVersions name their caller. -/
theorem ver_index_inj (kinds : List Kind) (hdistinct : (kinds.map Kind.ver).Nodup)
    (i j : Nat) (k k' : Kind) (hi : kinds[i]? = some k) (hj : kinds[j]? = some k')
    (hver : k.ver = k'.ver) : i = j := by
  have hlt : i < (kinds.map Kind.ver).length := by
    rw [List.length_map]
    exact (List.getElem?_eq_some.1 hi).1
  apply List.getElem?_inj hlt hdistinct
  rw [List.getElem?_map, List.getElem?_map, hi, hj]
  simp [hver]

/-- A step of a caller that exists: the registry and the positions after it. -/
theorem step_of_some (kinds : List Kind) (s : System) (i : Nat) (a : CreateResult)
    (gcrd : Kind) (pc : PC) (hk : kinds[i]? = some gcrd) (hp : s.pcs[i]? = some pc) :
    (System.step kinds s (i, a)).CRDs = (stepCaller gcrd a s.CRDs pc).1 ∧
    (System.step kinds s (i, a)).pcs.length = s.pcs.length ∧
    ∀ j : Nat, (System.step kinds s (i, a)).pcs[j]?
      = if i = j then some (stepCaller gcrd a s.CRDs pc).2 else s.pcs[j]? := by
  have hlt : i < s.pcs.length := (List.getElem?_eq_some.1 hp).1
  have hstep : System.step kinds s (i, a)
      = { CRDs := (stepCaller gcrd a s.CRDs pc).1,
          pcs := s.pcs.set i (stepCaller gcrd a s.CRDs pc).2 } := by
    simp only [System.step, hk, hp]
  rw [hstep]
  refine ⟨rfl, List.length_set _ _ _, ?_⟩
  intro j
  show (s.pcs.set i (stepCaller gcrd a s.CRDs pc).2)[j]? = _
  rw [List.getElem?_set]
  simp [hlt]

/-- A step of an index that names no caller changes nothing. -/
theorem step_of_none (kinds : List Kind) (s : System) (i : Nat) (a : CreateResult)
    (h : kinds[i]? = none ∨ s.pcs[i]? = none) : System.step kinds s (i, a) = s := by
  rcases h with h | h
  · simp [System.step, h]
  · cases hk : kinds[i]? <;> simp [System.step, h, hk]

/-- The start satisfies the invariant. -/
theorem init_inv (kinds : List Kind) : System.Inv kinds (System.init kinds) where
  length_eq := by simp [System.init]
  no_error := by
    intro i err h
    simp only [System.init, List.getElem?_map] at h
    cases hk : kinds[i]? <;> simp [hk] at h
  keys_iff := by
    intro gv
    constructor
    · intro h
      simp [System.init] at h
    · rintro ⟨i, k, -, -, h⟩
      simp only [System.init, List.getElem?_map] at h
      cases hk : kinds[i]? <;> simp [hk] at h

/-- A step whose create succeeds keeps the invariant. -/
theorem step_inv (kinds : List Kind) (hdistinct : (kinds.map Kind.ver).Nodup)
    (s : System) (e : Nat × CreateResult) (hok : e.2.err = none)
    (inv : System.Inv kinds s) : System.Inv kinds (System.step kinds s e) := by
  obtain ⟨i, a⟩ := e
  simp only at hok
  cases hk : kinds[i]? with
  | none => rw [step_of_none kinds s i a (Or.inl hk)]; exact inv
  | some gcrd =>
    cases hp : s.pcs[i]? with
    | none => rw [step_of_none kinds s i a (Or.inr hp)]; exact inv
    | some pc =>
      obtain ⟨hC, hlen, hget⟩ := step_of_some kinds s i a gcrd pc hk hp
      -- the caller's own GroupVersion is in the registry only once it has returned
      have hown : gcrd.ver ∈ s.CRDs.keys → pc = PC.returned none := by
        intro hmem
        obtain ⟨j, k, hj, hv, hpj⟩ := (inv.keys_iff gcrd.ver).1 hmem
        have hij : j = i := ver_index_inj kinds hdistinct j i k gcrd hj hk hv
        subst hij
        rw [hp] at hpj
        exact Option.some.inj hpj
      cases pc with
      | check =>
        have hnot : s.CRDs.lookup gcrd.ver = none := by
          rw [AList.lookup_eq_none, AList.mem_keys]
          intro hmem
          exact PC.noConfusion (hown hmem)
        have hstep : stepCaller gcrd a s.CRDs PC.check = (s.CRDs, PC.create) := by
          simp [stepCaller, hnot]
        rw [hstep] at hC hget
        refine ⟨by rw [hlen]; exact inv.length_eq, ?_, ?_⟩
        · intro j err
          rw [hget j]
          split
          · simp
          · exact inv.no_error j err
        · intro gv
          rw [hC, inv.keys_iff gv]
          constructor
          · rintro ⟨j, k, hj, hv, hpj⟩
            refine ⟨j, k, hj, hv, ?_⟩
            rw [hget j]
            have hne : i ≠ j := by
              intro hEq; subst hEq; rw [hp] at hpj; cases hpj
            simp [hne, hpj]
          · rintro ⟨j, k, hj, hv, hpj⟩
            refine ⟨j, k, hj, hv, ?_⟩
            rw [hget j] at hpj
            by_cases hEq : i = j
            · simp [hEq] at hpj
            · simpa [hEq] using hpj
      | create =>
        have hstep : stepCaller gcrd a s.CRDs PC.create = (s.CRDs, PC.record a.crd) := by
          simp [stepCaller, hok]
        rw [hstep] at hC hget
        refine ⟨by rw [hlen]; exact inv.length_eq, ?_, ?_⟩
        · intro j err
          rw [hget j]
          split
          · simp
          · exact inv.no_error j err
        · intro gv
          rw [hC, inv.keys_iff gv]
          constructor
          · rintro ⟨j, k, hj, hv, hpj⟩
            refine ⟨j, k, hj, hv, ?_⟩
            rw [hget j]
            have hne : i ≠ j := by
              intro hEq; subst hEq; rw [hp] at hpj; cases hpj
            simp [hne, hpj]
          · rintro ⟨j, k, hj, hv, hpj⟩
            refine ⟨j, k, hj, hv, ?_⟩
            rw [hget j] at hpj
            by_cases hEq : i = j
            · simp [hEq] at hpj
            · simpa [hEq] using hpj
      | record crd =>
        have hstep : stepCaller gcrd a s.CRDs (PC.record crd)
            = (s.CRDs.insert gcrd.ver crd, PC.returned none) := rfl
        rw [hstep] at hC hget
        refine ⟨by rw [hlen]; exact inv.length_eq, ?_, ?_⟩
        · intro j err
          rw [hget j]
          split
          · simp
          · exact inv.no_error j err
        · intro gv
          rw [hC, ← AList.mem_keys, AList.mem_insert, AList.mem_keys, inv.keys_iff gv]
          constructor
          · rintro (hgv | ⟨j, k, hj, hv, hpj⟩)
            · exact ⟨i, gcrd, hk, hgv.symm, by rw [hget i]; simp⟩
            · refine ⟨j, k, hj, hv, ?_⟩
              rw [hget j]
              have hne : i ≠ j := by
                intro hEq; subst hEq; rw [hp] at hpj; cases hpj
              simp [hne, hpj]
          · rintro ⟨j, k, hj, hv, hpj⟩
            by_cases hEq : i = j
            · subst hEq
              rw [hk] at hj
              cases hj
              exact Or.inl hv.symm
            · right
              refine ⟨j, k, hj, hv, ?_⟩
              rw [hget j] at hpj
              simpa [hEq] using hpj
      | returned err =>
        have hstep : stepCaller gcrd a s.CRDs (PC.returned err)
            = (s.CRDs, PC.returned err) := rfl
        rw [hstep] at hC hget
        have hsame : ∀ j : Nat, (System.step kinds s (i, a)).pcs[j]? = s.pcs[j]? := by
          intro j
          rw [hget j]
          split
          · next hEq => subst hEq; exact hp.symm
          · rfl
        refine ⟨by rw [hlen]; exact inv.length_eq, ?_, ?_⟩
        · intro j e'
          rw [hsame j]
          exact inv.no_error j e'
        · intro gv
          rw [hC, inv.keys_iff gv]
          simp only [hsame]

/-- A schedule whose creates all succeed keeps the invariant. -/
theorem run_inv (kinds : List Kind) (hdistinct : (kinds.map Kind.ver).Nodup) :
    ∀ (sched : List (Nat × CreateResult)) (s : System),
      (∀ e ∈ sched, e.2.err = none) → System.Inv kinds s →
      System.Inv kinds (System.run kinds sched s) := by
  intro sched
  induction sched with
  | nil => intro s _ inv; exact inv
  | cons e rest ih =>
    intro s hok inv
    show System.Inv kinds (System.run kinds rest (System.step kinds s e))
    apply ih
    · intro e' he'
      exact hok e' (List.mem_cons_of_mem _ he')
    · exact step_inv kinds hdistinct s e (hok e (List.mem_cons_self _ _)) inv

/-- Every atomic step brings a caller that has not returned one step further. -/
theorem stepCaller_rank (gcrd : Kind) (a : CreateResult) (CRDs : Registry) (pc : PC) :
    min 3 (pc.rank + 1) ≤ (stepCaller gcrd a CRDs pc).2.rank := by
  cases pc with
  | check =>
    cases h : CRDs.lookup gcrd.ver <;> simp [stepCaller, h, PC.rank]
  | create =>
    cases h : a.err with
    | none => simp [stepCaller, h, PC.rank]
    | some err => cases hx : IsAlreadyExists err <;> simp [stepCaller, h, hx, PC.rank]
  | record crd => simp [stepCaller, PC.rank]
  | returned err => simp [stepCaller, PC.rank]

/-- After a schedule a caller is at least as many steps further as the schedule names it,
up to the three steps it has to take. -/
theorem run_rank (kinds : List Kind) :
    ∀ (sched : List (Nat × CreateResult)) (s : System) (i : Nat) (pc : PC),
      s.pcs.length = kinds.length → s.pcs[i]? = some pc →
      (System.run kinds sched s).pcs.length = kinds.length ∧
      ∃ pc', (System.run kinds sched s).pcs[i]? = some pc' ∧
        min 3 (pc.rank + (sched.map Prod.fst).count i) ≤ pc'.rank := by
  intro sched
  induction sched with
  | nil =>
    intro s i pc hlen hp
    exact ⟨hlen, pc, hp, by simp⟩
  | cons e rest ih =>
    intro s i pc hlen hp
    obtain ⟨j, a⟩ := e
    have hi : i < kinds.length := by
      rw [← hlen]; exact (List.getElem?_eq_some.1 hp).1
    have key : (System.step kinds s (j, a)).pcs.length = kinds.length ∧
        ∃ pc₁, (System.step kinds s (j, a)).pcs[i]? = some pc₁ ∧
          min 3 (pc.rank + (if j = i then 1 else 0)) ≤ pc₁.rank := by
      cases hk : kinds[j]? with
      | none =>
        rw [step_of_none kinds s j a (Or.inl hk)]
        have hne : j ≠ i := by
          intro hEq; subst hEq
          rw [List.getElem?_eq_getElem hi] at hk
          cases hk
        exact ⟨hlen, pc, hp, by simp [hne]⟩
      | some gcrd =>
        cases hq : s.pcs[j]? with
        | none =>
          rw [step_of_none kinds s j a (Or.inr hq)]
          have hne : j ≠ i := by
            intro hEq; subst hEq
            rw [hp] at hq
            cases hq
          exact ⟨hlen, pc, hp, by simp [hne]⟩
        | some q =>
          obtain ⟨-, hl, hget⟩ := step_of_some kinds s j a gcrd q hk hq
          refine ⟨by rw [hl]; exact hlen, ?_⟩
          by_cases hEq : j = i
          · subst hEq
            rw [hp] at hq
            cases hq
            refine ⟨(stepCaller gcrd a s.CRDs pc).2, by rw [hget j]; simp, ?_⟩
            simpa using stepCaller_rank gcrd a s.CRDs pc
          · exact ⟨pc, by rw [hget i]; simp [hEq, hp], by simp [hEq]⟩
    obtain ⟨hlen₁, pc₁, hp₁, hr₁⟩ := key
    obtain ⟨hlen₂, pc₂, hp₂, hr₂⟩ := ih (System.step kinds s (j, a)) i pc₁ hlen₁ hp₁
    refine ⟨hlen₂, pc₂, hp₂, ?_⟩
    have hcount : ((List.map Prod.fst ((j, a) :: rest)).count i)
        = (rest.map Prod.fst).count i + (if j = i then 1 else 0) := by
      rw [List.map_cons, List.count_cons]
      simp
    rw [hcount]
    omega

/-- No step adds or removes a caller. -/
theorem run_length (kinds : List Kind) :
    ∀ (sched : List (Nat × CreateResult)) (s : System),
      (System.run kinds sched s).pcs.length = s.pcs.length := by
  intro sched
  induction sched with
  | nil => intro s; rfl
  | cons e rest ih =>
    intro s
    obtain ⟨j, a⟩ := e
    show (System.run kinds rest (System.step kinds s (j, a))).pcs.length = _
    rw [ih]
    cases hk : kinds[j]? with
    | none => rw [step_of_none kinds s j a (Or.inl hk)]
    | some gcrd =>
      cases hq : s.pcs[j]? with
      | none => rw [step_of_none kinds s j a (Or.inr hq)]
      | some q => exact (step_of_some kinds s j a gcrd q hk hq).2.1

/-- A schedule that lets every caller take its three steps makes every caller return. -/
theorem run_allReturned (kinds : List Kind) (sched : List (Nat × CreateResult))
    (hfair : ∀ i : Nat, i < kinds.length → 3 ≤ (sched.map Prod.fst).count i) :
    (System.run kinds sched (System.init kinds)).allReturned = true := by
  rw [System.allReturned, List.all_eq_true]
  intro pc hpc
  obtain ⟨i, hi⟩ := List.mem_iff_getElem?.1 hpc
  have hlen0 : (System.init kinds).pcs.length = kinds.length := by simp [System.init]
  have hlt : i < kinds.length := by
    rw [← hlen0, ← run_length kinds sched (System.init kinds)]
    exact (List.getElem?_eq_some.1 hi).1
  have hp0 : (System.init kinds).pcs[i]? = some PC.check := by
    simp only [System.init, List.getElem?_map, List.getElem?_eq_getElem hlt]
    rfl
  obtain ⟨-, pc', hp', hr⟩ := run_rank kinds sched (System.init kinds) i PC.check hlen0 hp0
  rw [hi] at hp'
  cases hp'
  have h3 := hfair i hlt
  have hz : PC.check.rank = 0 := rfl
  have : 3 ≤ pc.rank := by
    rw [hz] at hr
    omega
  cases pc <;> simp [PC.rank] at this
  rfl

/-- When the GroupVersions are pairwise distinct and every create succeeds, a run after
which every caller has returned ends with one registry entry for each caller. -/
theorem run_complete (kinds : List Kind) (sched : List (Nat × CreateResult))
    (hdistinct : (kinds.map Kind.ver).Nodup)
    (hok : ∀ e ∈ sched, e.2.err = none)
    (hdone : (System.run kinds sched (System.init kinds)).allReturned = true) :
    (∀ pc ∈ (System.run kinds sched (System.init kinds)).pcs, pc = PC.returned none) ∧
    (System.run kinds sched (System.init kinds)).CRDs.entries.length = kinds.length ∧
    (System.run kinds sched (System.init kinds)).CRDs.keys.Perm (kinds.map Kind.ver) := by
  have inv := run_inv kinds hdistinct sched (System.init kinds) hok (init_inv kinds)
  generalize System.run kinds sched (System.init kinds) = final at inv hdone
  rw [System.allReturned, List.all_eq_true] at hdone
  have hall : ∀ pc ∈ final.pcs, pc = PC.returned none := by
    intro pc hpc
    have hr := hdone pc hpc
    obtain ⟨i, hi⟩ := List.mem_iff_getElem?.1 hpc
    cases pc with
    | returned err =>
      cases err with
      | none => rfl
      | some e => exact absurd hi (inv.no_error i e)
    | check => simp [PC.isReturned] at hr
    | create => simp [PC.isReturned] at hr
    | record crd => simp [PC.isReturned] at hr
  have hperm : final.CRDs.keys.Perm (kinds.map Kind.ver) := by
    rw [List.perm_ext_iff_of_nodup (AList.keys_nodup _) hdistinct]
    intro gv
    rw [inv.keys_iff gv, List.mem_map]
    constructor
    · rintro ⟨i, k, hk, hv, -⟩
      exact ⟨k, List.mem_iff_getElem?.2 ⟨i, hk⟩, hv⟩
    · rintro ⟨k, hk, hv⟩
      obtain ⟨i, hi⟩ := List.mem_iff_getElem?.1 hk
      have hlt : i < final.pcs.length := by
        rw [inv.length_eq]; exact (List.getElem?_eq_some.1 hi).1
      refine ⟨i, k, hi, hv, ?_⟩
      rw [List.getElem?_eq_getElem hlt]
      exact congrArg some (hall _ (List.getElem_mem _))
  refine ⟨hall, ?_, hperm⟩
  have hlen : final.CRDs.entries.length = final.CRDs.keys.length := by
    simp [AList.keys, List.keys]
  rw [hlen, hperm.length_eq, List.length_map]

/-- C6, amended: for N schemas with pairwise distinct GroupVersions registered by N callers
on an initially empty registry, every remote create succeeding, every interleaving of the
callers' atomic steps that lets each caller take its three steps makes every caller return,
and whenever every caller has returned each has returned nil and the registry holds exactly
N entries, one under each caller's GroupVersion and none twice. -/
theorem registerSchema_interleaved (kinds : List Kind) (sched : List (Nat × CreateResult))
    (hdistinct : (kinds.map Kind.ver).Nodup)
    (hok : ∀ e ∈ sched, e.2.err = none) :
    ((∀ i : Nat, i < kinds.length → 3 ≤ (sched.map Prod.fst).count i) →
      (System.run kinds sched (System.init kinds)).allReturned = true) ∧
    ((System.run kinds sched (System.init kinds)).allReturned = true →
      (∀ pc ∈ (System.run kinds sched (System.init kinds)).pcs, pc = PC.returned none) ∧
      (System.run kinds sched (System.init kinds)).CRDs.entries.length = kinds.length ∧
      (System.run kinds sched (System.init kinds)).CRDs.keys.Perm (kinds.map Kind.ver) ∧
      (System.run kinds sched (System.init kinds)).CRDs.keys.Nodup) :=
  ⟨run_allReturned kinds sched, fun hdone =>
    ⟨(run_complete kinds sched hdistinct hok hdone).1,
     (run_complete kinds sched hdistinct hok hdone).2.1,
     (run_complete kinds sched hdistinct hok hdone).2.2,
     AList.keys_nodup _⟩⟩

/-- Witness of the amended C6: two callers with distinct GroupVersions that both pass the
check and both call the cluster before either one writes. -/
theorem registerSchema_interleaved_witness :
    (System.run [dashboardKind, folderKind] interleavedSchedule
        (System.init [dashboardKind, folderKind])).allReturned = true ∧
    (System.run [dashboardKind, folderKind] interleavedSchedule
        (System.init [dashboardKind, folderKind])).CRDs.entries.length = 2 :=
  ⟨(registerSchema_interleaved [dashboardKind, folderKind] interleavedSchedule
      (by decide) (by decide)).1 (by decide),
   ((registerSchema_interleaved [dashboardKind, folderKind] interleavedSchedule
      (by decide) (by decide)).2
      ((registerSchema_interleaved [dashboardKind, folderKind] interleavedSchedule
        (by decide) (by decide)).1 (by decide))).2.1⟩

/-- C6 as stated fails: `dashboardKind` and `playlistKind` are two distinct schemas of one
group and version. Registered one after the other on an empty registry with every create
succeeding, the second call returns `ErrCRDAlreadyRegistered` and the registry ends with
one entry, not two; the same is seen on the step model under the sequential schedule. -/
theorem registerSchema_distinct_schemas_collide :
    collidingKinds.Nodup ∧ collidingKinds.length = 2 ∧
    (∀ e ∈ collidingSchedule, e.2.err = none) ∧
    (System.run collidingKinds collidingSchedule (System.init collidingKinds)).allReturned
      = true ∧
    (System.run collidingKinds collidingSchedule
      (System.init collidingKinds)).CRDs.entries.length = 1 ∧
    (RegisterSchema acceptAll sampleClientset dashboardKind).2 = none ∧
    (RegisterSchema acceptAll (RegisterSchema acceptAll sampleClientset dashboardKind).1
      playlistKind).2 = some Error.ErrCRDAlreadyRegistered ∧
    (RegisterSchema acceptAll (RegisterSchema acceptAll sampleClientset dashboardKind).1
      playlistKind).1.CRDs.entries.length = 1 := by
  refine ⟨by decide, rfl, by decide, by decide, by decide, by decide, by decide, by decide⟩

end bridge
